import Mathlib

/-!
Shallow embedding of the reconstruction/export pipeline of `src/inference.py`
(repository CassiniatSaturn/dust3r) together with the persistence helpers
`save_camera_poses` and `save_point_to_ply`.

Conventions of the embedding:
* machine floats are modelled exactly as rationals `ℚ`;
* numpy 4×4 matrices are `Matrix (Fin 4) (Fin 4) ℚ`;
* per-view raster data (images, point maps, confidence maps) is modelled as a
  flat list of per-pixel values per view;
* fallible Python operations return `Except PyErr`, with one error constructor
  per kind of Python exception the modelled code can raise;
* functions from the `dust3r` library that live in this repository but outside
  `src/` (the `OPENGL` constant, the SceneState getters, `clean_pointcloud`,
  `mask_sky`, `pts3d_to_trimesh`) are modelled from the spec, and are marked
  as such in their doc comments.
-/

/-- Kinds of Python exceptions raised by the modelled code. -/
inductive PyErr where
  | assertionError
  | attributeError
  | valueError
  | indexError
  | linAlgError
  | typeError
  deriving DecidableEq, Repr

/-- A 4×4 float matrix (numpy array), modelled exactly over `ℚ`. -/
abbrev M4 := Matrix (Fin 4) (Fin 4) ℚ

/-- A 3D point. -/
abbrev Pt := ℚ × ℚ × ℚ

/-- A pixel colour value. -/
abbrev Col := ℚ

/-- Python sequence indexing `l[i]`: raises `IndexError` when out of range. -/
def pyIndex (l : List α) (i : ℕ) : Except PyErr α :=
  if h : i < l.length then .ok (l.get ⟨i, h⟩) else .error .indexError

/-- `np.concatenate(xs)`: raises `ValueError` when the list of arrays is
empty, otherwise concatenates. -/
def npConcatenate (xs : List (List α)) : Except PyErr (List α) :=
  if xs.isEmpty then .error .valueError else .ok xs.flatten

/-- numpy boolean-mask indexing `p[m]`: keeps the entries of `p` whose mask
bit is `true`. -/
def maskedSelect (p : List α) (m : List Bool) : List α :=
  ((p.zip m).filter (fun pm => pm.2)).map (fun pm => pm.1)

/-- Executable 3×3 determinant on nine entries. -/
def det3 (a b c d e f g h i : ℚ) : ℚ :=
  a * (e * i - f * h) - b * (d * i - f * g) + c * (d * h - e * g)

/-- Executable 4×4 determinant (cofactor expansion along the first row);
`det4_eq` identifies it with `Matrix.det`. -/
def det4 (A : M4) : ℚ :=
  A 0 0 * det3 (A 1 1) (A 1 2) (A 1 3) (A 2 1) (A 2 2) (A 2 3) (A 3 1) (A 3 2) (A 3 3)
  - A 0 1 * det3 (A 1 0) (A 1 2) (A 1 3) (A 2 0) (A 2 2) (A 2 3) (A 3 0) (A 3 2) (A 3 3)
  + A 0 2 * det3 (A 1 0) (A 1 1) (A 1 3) (A 2 0) (A 2 1) (A 2 3) (A 3 0) (A 3 1) (A 3 3)
  - A 0 3 * det3 (A 1 0) (A 1 1) (A 1 2) (A 2 0) (A 2 1) (A 2 2) (A 3 0) (A 3 1) (A 3 2)

/-- `det4` computes `Matrix.det`. -/
theorem det4_eq (A : M4) : det4 A = A.det := by
  have h1 : Fin.succ (2 : Fin 3) = (3 : Fin 4) := rfl
  have h2 : Fin.succAbove (2 : Fin 4) (2 : Fin 3) = (3 : Fin 4) := rfl
  have h3 : Fin.castSucc (2 : Fin 3) = (2 : Fin 4) := rfl
  have h4 : Fin.succAbove (1 : Fin 4) (2 : Fin 3) = (3 : Fin 4) := rfl
  have h5 : Fin.succAbove (3 : Fin 4) (2 : Fin 3) = (2 : Fin 4) := rfl
  rw [Matrix.det_succ_row_zero]
  simp [Fin.sum_univ_succ, Matrix.det_fin_three, Matrix.submatrix_apply, det4, det3,
    h1, h2, h3, h4, h5]
  ring

/-- `np.linalg.inv`: raises `LinAlgError` on a singular matrix, otherwise
returns the exact inverse `det⁻¹ • adjugate` (the singularity test uses the
executable determinant `det4`). -/
def npLinalgInv (A : M4) : Except PyErr M4 :=
  if det4 A = 0 then .error .linAlgError else .ok (A.det⁻¹ • A.adjugate)

/-- `max` of a numpy array / Python `max` of a list: `none` on an empty
input (where Python raises), otherwise the maximum element. -/
def npMax : List ℚ → Option ℚ
  | [] => none
  | x :: xs => some (xs.foldl max x)

/-- Modelled from the spec: the fixed axis-convention correction matrix
(the `OPENGL` constant imported from `dust3r.viz`, which is not under
`src/`); the OpenGL camera convention negates the y and z axes. -/
def OPENGL : M4 :=
  !![1, 0, 0, 0; 0, -1, 0, 0; 0, 0, -1, 0; 0, 0, 0, 1]

/-- The 4×4 matrix built at `inference.py:102-108`: identity with its upper
3×3 block replaced by `Rotation.from_euler("y", deg2rad(180))`, i.e. a
180° rotation about the vertical axis (taken exactly). -/
def rotY180 : M4 :=
  !![-1, 0, 0, 0; 0, 1, 0, 0; 0, 0, -1, 0; 0, 0, 0, 1]

/-- The determinant of the axis-convention correction is 1. -/
theorem det_OPENGL : OPENGL.det = 1 := by
  simp [OPENGL, Matrix.det_succ_row_zero, Fin.sum_univ_succ]

/-- The determinant of the 180° vertical-axis rotation is 1. -/
theorem det_rotY180 : rotY180.det = 1 := by
  simp [rotY180, Matrix.det_succ_row_zero, Fin.sum_univ_succ]

/-- The retained reconstruction handle (the scene returned by the global
aligner).  Per-view data is one list entry per view; within a view, raster
data is one list entry per pixel.

Fields read by `src/inference.py`: `imgs`, `get_focals`, `get_im_poses`,
`get_pts3d`, `conf_trf`, `min_conf_thr` (also written), `get_masks`,
`im_conf`, `get_depthmaps`.  The getters themselves live in the `dust3r`
library (not under `src/`) and are modelled from the spec.

`sky` and `outlier` model the per-pixel classifier outputs that the
spec-modelled `mask_sky` / `clean_pointcloud` post-processes exclude;
`skyMasked` / `depthCleaned` record whether those post-processes have been
applied to this handle. -/
structure SceneState where
  imgs : List (List Col)
  pts3d : List (List Pt)
  im_conf : List (List ℚ)
  depthmaps : List (List ℚ)
  poses : List M4
  focals : List ℚ
  min_conf_thr : ℚ
  conf_trf : ℚ → ℚ
  sky : List (List Bool)
  outlier : List (List Bool)
  skyMasked : Bool := false
  depthCleaned : Bool := false

/-- Modelled from the spec: `scene.clean_pointcloud()` (dust3r library, not
under `src/`) — "remove depth outliers per view using the scene's own
internal consistency check", acting on a working copy as a monotonic
mask-narrowing operation. -/
def SceneState.clean_pointcloud (s : SceneState) : SceneState :=
  { s with depthCleaned := true }

/-- Modelled from the spec: `scene.mask_sky()` (dust3r library, not under
`src/`) — "remove pixels classified as sky", acting on a working copy as a
monotonic mask-narrowing operation. -/
def SceneState.mask_sky (s : SceneState) : SceneState :=
  { s with skyMasked := true }

/-- Modelled from the spec: `scene.get_masks()` (dust3r library, not under
`src/`) — the per-view boolean mask "confidence ≥ threshold AND optional
sky-exclusion AND optional depth-outlier-exclusion". -/
def SceneState.get_masks (s : SceneState) : List (List Bool) :=
  (s.im_conf.zip (s.sky.zip s.outlier)).map (fun v =>
    (v.1.zip (v.2.1.zip v.2.2)).map (fun px =>
      decide (s.min_conf_thr ≤ px.1)
        && !(s.skyMasked && px.2.1) && !(s.depthCleaned && px.2.2)))

/-- A dynamically-typed Python value, as far as the modelled code needs:
the demo passes `None`, floats, booleans, strings and the scene handle
through untyped positional arguments. -/
inductive PyVal where
  | none
  | float (q : ℚ)
  | bool (b : Bool)
  | str (s : String)
  | scene (s : SceneState)

/-- Python `f"{v}"` conversion, for the file-name interpolation. -/
def PyVal.toStr : PyVal → String
  | .none => "None"
  | .float q => toString q
  | .bool b => cond b "True" "False"
  | .str s => s
  | .scene _ => "<PointCloudOptimizer>"

/-- The Python test `v is None`. -/
def PyVal.isNone : PyVal → Bool
  | .none => true
  | _ => false

/-- An attribute access `v.attr` that is only valid on the scene handle:
on any other value Python raises `AttributeError`. -/
def PyVal.asScene : PyVal → Except PyErr SceneState
  | .scene s => .ok s
  | _ => .error .attributeError

/-- `float(torch.tensor(v))` on the raw threshold argument: numbers and
booleans convert (`True`→1, `False`→0); anything else raises. -/
def PyVal.toFloat : PyVal → Except PyErr ℚ
  | .float q => .ok q
  | .bool b => .ok (cond b 1 0)
  | _ => .error .typeError

/-- Modelled from the spec: `pts3d_to_trimesh` + `cat_meshes`
(`dust3r.viz`, not under `src/`) produce per-view meshes from the masked
depth grid; the embedding keeps the masked vertices and their colours (the
triangulation's face indices are irrelevant to every claim and omitted). -/
structure MeshData where
  verts : List Pt
  cols : List Col
  deriving DecidableEq

/-- The geometry stored in the exported scene (`trimesh.PointCloud` or the
concatenated `trimesh.Trimesh`). -/
inductive Geometry where
  | pointcloud (pts : List Pt) (cols : List Col)
  | mesh (m : MeshData)
  deriving DecidableEq

/-- The vertices an artifact's geometry holds. -/
def Geometry.verts : Geometry → List Pt
  | .pointcloud pts _ => pts
  | .mesh m => m.verts

/-- The result of a successful `scene.export(file_obj=outfile)`: the path
written, the world transform applied to the scene by `apply_transform`
just before the export, and the geometry it contains. -/
structure GlbExport where
  file : String
  transform : M4
  geom : Geometry

/-- The chained length assertion at `inference.py:65`:
`len(pts3d) == len(mask) <= len(imgs) <= len(cams2world) == len(focals)`. -/
def glbLenOk (npts nmask nimgs ncams nfoc : ℕ) : Bool :=
  (npts == nmask) && (nmask ≤ nimgs) && (nimgs ≤ ncams) && (ncams == nfoc)

/-- The point-cloud branch (`inference.py:74-78`): concatenate the masked
points and the matching masked colours over all views. -/
def buildPointcloud (pts3d : List (List Pt)) (imgs : List (List Col))
    (mask : List (List Bool)) : Except PyErr Geometry :=
  match npConcatenate ((pts3d.zip mask).map (fun pm => maskedSelect pm.1 pm.2)) with
  | .error e => .error e
  | .ok pts =>
    match npConcatenate ((imgs.zip mask).map (fun pm => maskedSelect pm.1 pm.2)) with
    | .error e => .error e
    | .ok col => .ok (.pointcloud pts col)

/-- Modelled from the spec: one view's `pts3d_to_trimesh(img, pts, mask)`
(`dust3r.viz`, not under `src/`) — triangulate the view's masked grid; the
mesh's vertex set is the masked points with their colours. -/
def pts3d_to_trimesh (img : List Col) (pts : List Pt) (mask : List Bool) : MeshData :=
  { verts := maskedSelect pts mask, cols := maskedSelect img mask }

/-- `cat_meshes` (`dust3r.viz`, not under `src/`), modelled from the spec:
concatenate the per-view meshes into one mesh. -/
def cat_meshes (ms : List MeshData) : MeshData :=
  { verts := (ms.map MeshData.verts).flatten, cols := (ms.map MeshData.cols).flatten }

/-- The loop body of the mesh branch (`inference.py:79-84`) over the index
list: for each `i`, index `imgs[i]`, `pts3d[i]`, `mask[i]` in Python's
evaluation order (raising `IndexError` when a shorter list runs out) and
collect the per-view meshes. -/
def buildMeshList (imgs : List (List Col)) (pts3d : List (List Pt))
    (mask : List (List Bool)) : List ℕ → Except PyErr (List MeshData)
  | [] => .ok []
  | i :: rest =>
    match pyIndex imgs i with
    | .error e => .error e
    | .ok img =>
      match pyIndex pts3d i with
      | .error e => .error e
      | .ok p =>
        match pyIndex mask i with
        | .error e => .error e
        | .ok m =>
          match buildMeshList imgs pts3d mask rest with
          | .error e => .error e
          | .ok ms => .ok (pts3d_to_trimesh img p m :: ms)

def buildMesh (imgs : List (List Col)) (pts3d : List (List Pt))
    (mask : List (List Bool)) : Except PyErr Geometry :=
  match buildMeshList imgs pts3d mask (List.range imgs.length) with
  | .error e => .error e
  | .ok ms => .ok (.mesh (cat_meshes ms))

/-- `_convert_scene_output_to_glb` (`inference.py:52-113`).  The camera
frustum overlay (lines 86-100) is commented out in the source, so
`cam_size`, `cam_color` and `transparent_cams` are unused and omitted.
The final artifact records the transform
`np.linalg.inv(cams2world[0] @ OPENGL @ rot)` applied to the scene and the
path `outdir/{scene_name}_{pointcloud|mesh}.glb` the scene is exported
to. -/
def _convert_scene_output_to_glb (outdir scene_name : String)
    (imgs : List (List Col)) (pts3d : List (List Pt)) (mask : List (List Bool))
    (focals : List ℚ) (cams2world : List M4) (as_pointcloud : Bool) :
    Except PyErr GlbExport :=
  if !glbLenOk pts3d.length mask.length imgs.length cams2world.length focals.length then
    .error .assertionError
  else
    match (if as_pointcloud then buildPointcloud pts3d imgs mask
           else buildMesh imgs pts3d mask) with
    | .error e => .error e
    | .ok geom =>
      match pyIndex cams2world 0 with
      | .error e => .error e
      | .ok c0 =>
        match npLinalgInv (c0 * OPENGL * rotY180) with
        | .error e => .error e
        | .ok t =>
          .ok { file := outdir ++ "/" ++ scene_name ++ "_" ++
                  (if as_pointcloud then "pointcloud" else "mesh") ++ ".glb",
                transform := t, geom := geom }

/-- `get_3D_model_from_scene` (`inference.py:116-157`).  `scene` and the
raw threshold come in as untyped Python values (the demo wires them from
untyped positional arguments).  On a `None` scene the call returns `None`
(`ok none`); otherwise every code path first accesses an attribute of
`scene`, raising `AttributeError` unless it really is a scene handle.
Per the spec, `clean_pointcloud` / `mask_sky` act on a working copy and
the recomputed `min_conf_thr` is stored back on the retained SceneState;
the call's result pairs that retained state with the written artifact. -/
def get_3D_model_from_scene (outdir : String) (scene_name scene min_conf_thr : PyVal)
    (as_pointcloud mask_sky clean_depth : Bool) :
    Except PyErr (Option (SceneState × GlbExport)) :=
  if scene.isNone then .ok Option.none
  else
    match scene.asScene with
    | .error e => .error e
    | .ok s0 =>
      let s1 := if clean_depth then s0.clean_pointcloud else s0
      let s2 := if mask_sky then s1.mask_sky else s1
      match min_conf_thr.toFloat with
      | .error e => .error e
      | .ok thr =>
        let newThr := s2.conf_trf thr
        let msk := SceneState.get_masks { s2 with min_conf_thr := newThr }
        match _convert_scene_output_to_glb outdir scene_name.toStr s2.imgs s2.pts3d
            msk s2.focals s2.poses as_pointcloud with
        | .error e => .error e
        | .ok g => .ok (some ({ s0 with min_conf_thr := newThr }, g))

/-- The export step of `get_reconstructed_scene` (`inference.py:209-218`),
exactly as the source calls it: the call site passes
`(outdir, scene, min_conf_thr, as_pointcloud, mask_sky, clean_depth,
transparent_cams, cam_size)` positionally to a function whose positional
parameters are `(outdir, scene_name, scene, min_conf_thr, as_pointcloud,
mask_sky, clean_depth, transparent_cams, cam_size)` — the `scene_name`
argument is missing, so every subsequent argument lands one parameter to
the left (`transparent_cams` receives `cam_size` and `cam_size` keeps its
default; both are unused downstream, see the converter). -/
def get_reconstructed_scene_export (outdir : String) (scene : SceneState)
    (min_conf_thr : ℚ) (as_pointcloud mask_sky clean_depth : Bool)
    (_transparent_cams : Bool) (_cam_size : ℚ) :
    Except PyErr (Option (SceneState × GlbExport)) :=
  get_3D_model_from_scene outdir (.scene scene) (.float min_conf_thr)
    (.bool as_pointcloud) mask_sky clean_depth _transparent_cams

/-- The two alignment modes of `dust3r.cloud_opt.GlobalAlignerMode` used
by `src/inference.py`. -/
inductive AlignerMode where
  | pointCloudOptimizer
  | pairViewer
  deriving DecidableEq, Repr

/-- One call to `scene.compute_global_alignment` with its arguments. -/
structure AlignmentCall where
  init : String
  niter : ℕ
  schedule : String
  lr : ℚ
  deriving DecidableEq, Repr

/-- `inference.py:183-185`: a single loaded image is duplicated so that
downstream stages always see at least two views. -/
def resolveViewCount (n : ℕ) : ℕ :=
  if n = 1 then 2 else n

/-- The mode selection at `inference.py:196-200`:
`PointCloudOptimizer` when `len(imgs) > 2`, `PairViewer` otherwise. -/
def selectAlignerMode (nimgs : ℕ) : AlignerMode :=
  if nimgs > 2 then .pointCloudOptimizer else .pairViewer

/-- The iterative-optimization calls issued at `inference.py:202-207`: in
`PointCloudOptimizer` mode one `compute_global_alignment(init="mst",
niter=niter, schedule=schedule, lr=0.01)` call, in `PairViewer` mode
none. -/
def alignmentCalls (nimgs niter : ℕ) (schedule : String) : List AlignmentCall :=
  if selectAlignerMode nimgs = .pointCloudOptimizer then
    [{ init := "mst", niter := niter, schedule := schedule, lr := 1/100 }]
  else []

/-- The per-view maxima `[d.max() for d in depths]`
(`inference.py:227`): `none` when some view's depth map is empty. -/
def viewMaxes : List (List ℚ) → Option (List ℚ)
  | [] => some []
  | d :: ds =>
    match npMax d, viewMaxes ds with
    | some m, some ms => some (m :: ms)
    | _, _ => Option.none

/-- The depth normalization of the diagnostic gallery
(`inference.py:224-228`): every view's depth map is divided by
`max([d.max() for d in depths])`, the single maximum over all views.
`none` models the `ValueError` Python's `max` raises on empty input. -/
def renderDepths (depths : List (List ℚ)) : Option (List (List ℚ)) :=
  match viewMaxes depths with
  | Option.none => Option.none
  | some maxes =>
    match npMax maxes with
    | Option.none => Option.none
    | some depths_max => some (depths.map (fun d => d.map (fun x => x / depths_max)))

/-- Python `dict` insertion `d[k] = v` on an insertion-ordered dict held
as an association list: overwrite in place if the key exists, else
append. -/
def pyDictInsert (d : List (String × α)) (k : String) (v : α) : List (String × α) :=
  if k ∈ d.map Prod.fst then
    d.map (fun kv => if kv.1 = k then (k, v) else kv)
  else d ++ [(k, v)]

/-- Lookup in an insertion-ordered dict: the value stored at the first
matching key. -/
def pyDictGet : List (String × α) → String → Option α
  | [], _ => Option.none
  | (k1, v) :: rest, k => if k1 = k then some v else pyDictGet rest k

/-- A 4×4 pose as `pose.tolist()` serializes it: nested numeric lists. -/
abbrev PoseList := List (List ℚ)

/-- `save_camera_poses` (`inference.py:486-498`): asserts
`len(file_names) == len(poses)`, then builds the dict
`M_ext[view_name] = pose.tolist()` over `zip(poses, file_names)` and
writes the JSON object `{"extrinsics": M_ext}` — modelled as the
top-level association list the dumped object holds. -/
def save_camera_poses (poses : List PoseList) (file_names : List String) :
    Except PyErr (List (String × List (String × PoseList))) :=
  if file_names.length = poses.length then
    .ok [("extrinsics",
      (poses.zip file_names).foldl (fun d pn => pyDictInsert d pn.2 pn.1) [])]
  else .error .assertionError

/-- A 2-D numpy float array: a row list plus the column count its shape
reports. -/
structure NpArray2 where
  rows : List (List ℚ)
  cols : ℕ
  deriving DecidableEq

/-- numpy column slicing `points[:, :3]`. -/
def NpArray2.firstThreeCols (a : NpArray2) : NpArray2 :=
  { rows := a.rows.map (fun r => r.take 3), cols := min a.cols 3 }

/-- `save_point_to_ply` (`inference.py:501-507`): reads `_, dim =
points.shape`, drops the 4th column when `dim == 4`, and hands the
resulting XYZ rows to the point-cloud writer; the modelled value is the
row data written. -/
def save_point_to_ply (points : NpArray2) : List (List ℚ) :=
  if points.cols = 4 then points.firstThreeCols.rows else points.rows

/-- The working copies taken by the post-processing flags keep the
confidence-transform function. -/
theorem workingCopy_conf_trf (s : SceneState) (mSky cDepth : Bool) :
    (if mSky then SceneState.mask_sky (if cDepth then s.clean_pointcloud else s)
     else (if cDepth then s.clean_pointcloud else s)).conf_trf = s.conf_trf := by
  cases mSky <;> cases cDepth <;> rfl

/-- C1 (code bug at `inference.py:209`): every run of the export step of
`get_reconstructed_scene` raises `AttributeError` — the call omits the
`scene_name` positional argument, so the scene handle lands in
`scene_name`, the float threshold lands in `scene`, and the first
attribute access on that float raises.  No `.glb` file is ever written
and no outfile is returned. -/
theorem reconstructed_scene_export_always_raises (outdir : String)
    (scene : SceneState) (min_conf_thr : ℚ)
    (as_pointcloud mask_sky clean_depth transparent_cams : Bool) (cam_size : ℚ) :
    get_reconstructed_scene_export outdir scene min_conf_thr as_pointcloud
      mask_sky clean_depth transparent_cams cam_size = .error .attributeError := rfl

/-- C6: with more than two resolved views the orchestrator selects the
iterative `PointCloudOptimizer` mode and issues exactly one
`compute_global_alignment` call with init policy `"mst"`, the caller's
iteration count and schedule (and `lr = 0.01`); with exactly two views it
selects `PairViewer` and issues no optimization call. -/
theorem alignment_mode_selection (n niter : ℕ) (schedule : String) :
    (2 < n → selectAlignerMode n = .pointCloudOptimizer ∧
      alignmentCalls n niter schedule =
        [{ init := "mst", niter := niter, schedule := schedule, lr := 1/100 }]) ∧
    (n = 2 → selectAlignerMode n = .pairViewer ∧
      alignmentCalls n niter schedule = []) := by
  constructor
  · intro h
    have hm : selectAlignerMode n = .pointCloudOptimizer := by
      simp [selectAlignerMode, h]
    exact ⟨hm, by simp [alignmentCalls, hm]⟩
  · intro h
    subst h
    exact ⟨rfl, rfl⟩

/-- Witness for C6 at the spec's scenario: 3 views select the iterative
mode with one mst-initialized call; 2 views select the pair viewer with
none. -/
theorem alignment_mode_selection_witness :
    (selectAlignerMode 3 = .pointCloudOptimizer ∧
      alignmentCalls 3 300 "linear" =
        [{ init := "mst", niter := 300, schedule := "linear", lr := 1/100 }]) ∧
    (selectAlignerMode 2 = .pairViewer ∧ alignmentCalls 2 300 "linear" = []) :=
  ⟨(alignment_mode_selection 3 300 "linear").1 (by decide),
   (alignment_mode_selection 2 300 "linear").2 rfl⟩

/-- C8: on an N×4 point array, `save_point_to_ply` drops the 4th column,
writing exactly what it would write for the array's first three columns
alone. -/
theorem save_point_to_ply_drops_fourth_column (a : NpArray2) (h : a.cols = 4) :
    save_point_to_ply a = save_point_to_ply a.firstThreeCols := by
  simp [save_point_to_ply, NpArray2.firstThreeCols, h]

/-- Witness for C8 on a concrete one-row 4-column array. -/
theorem save_point_to_ply_drops_fourth_column_witness :
    (NpArray2.mk [[1, 2, 3, 4]] 4).cols = 4 ∧
    save_point_to_ply (NpArray2.mk [[1, 2, 3, 4]] 4) =
      save_point_to_ply (NpArray2.mk [[1, 2, 3, 4]] 4).firstThreeCols :=
  ⟨rfl, save_point_to_ply_drops_fourth_column _ rfl⟩

/-- C3: the diagnostic gallery divides every view's depth map by the single
maximum taken over all views; in particular for two views with depth maxima
2.0 and 4.0, both maps are divided by 4.0. -/
theorem renderDepths_single_global_max :
    (∀ (depths : List (List ℚ)) (maxes : List ℚ) (dmax : ℚ),
      viewMaxes depths = some maxes → npMax maxes = some dmax →
      renderDepths depths = some (depths.map (fun d => d.map (fun x => x / dmax)))) ∧
    (∀ d1 d2 : List ℚ, npMax d1 = some 2 → npMax d2 = some 4 →
      renderDepths [d1, d2] =
        some [d1.map (fun x => x / 4), d2.map (fun x => x / 4)]) := by
  have hgen : ∀ (depths : List (List ℚ)) (maxes : List ℚ) (dmax : ℚ),
      viewMaxes depths = some maxes → npMax maxes = some dmax →
      renderDepths depths = some (depths.map (fun d => d.map (fun x => x / dmax))) := by
    intro depths maxes dmax h1 h2
    simp [renderDepths, h1, h2]
  refine ⟨hgen, ?_⟩
  intro d1 d2 h1 h2
  have hm : viewMaxes [d1, d2] = some [2, 4] := by
    simp [viewMaxes, h1, h2]
  have h4 : npMax [(2 : ℚ), 4] = some 4 := by decide
  simpa using hgen [d1, d2] [2, 4] 4 hm h4

/-- Witness for C3: depth maps `[1, 2]` (max 2) and `[4, 3]` (max 4) are
both divided by the global maximum 4. -/
theorem renderDepths_single_global_max_witness :
    npMax [(1 : ℚ), 2] = some 2 ∧ npMax [(4 : ℚ), 3] = some 4 ∧
    renderDepths [[(1 : ℚ), 2], [(4 : ℚ), 3]] =
      some [[(1 : ℚ), 2].map (fun x => x / 4), [(4 : ℚ), 3].map (fun x => x / 4)] :=
  ⟨by decide, by decide,
   renderDepths_single_global_max.2 [1, 2] [4, 3] (by decide) (by decide)⟩

/-- Inserting a fresh key appends it. -/
theorem pyDictInsert_not_mem (d : List (String × α)) (k : String) (v : α)
    (h : k ∉ d.map Prod.fst) : pyDictInsert d k v = d ++ [(k, v)] := by
  rw [pyDictInsert, if_neg h]

/-- Folding dict insertion over pairs with pairwise-distinct fresh keys
appends the key-value pairs in order. -/
theorem foldl_pyDictInsert_nodup :
    ∀ (prs : List (α × String)) (acc : List (String × α)),
      (prs.map Prod.snd).Nodup → (∀ pr ∈ prs, pr.2 ∉ acc.map Prod.fst) →
      prs.foldl (fun d pn => pyDictInsert d pn.2 pn.1) acc =
        acc ++ prs.map (fun pr => (pr.2, pr.1)) := by
  intro prs
  induction prs with
  | nil => intro acc _ _; simp
  | cons pr rest ih =>
    intro acc hnd hdis
    have hnd1 : pr.2 ∉ rest.map Prod.snd := by
      have := hnd
      simp only [List.map_cons, List.nodup_cons] at this
      exact this.1
    have hnd2 : (rest.map Prod.snd).Nodup := by
      have := hnd
      simp only [List.map_cons, List.nodup_cons] at this
      exact this.2
    simp only [List.foldl_cons]
    rw [pyDictInsert_not_mem acc pr.2 pr.1 (hdis pr (List.mem_cons_self pr rest))]
    rw [ih (acc ++ [(pr.2, pr.1)]) hnd2 ?_]
    · simp
    · intro q hq
      simp only [List.map_append, List.mem_append, List.map_cons, List.map_nil,
        List.mem_singleton, not_or]
      refine ⟨hdis q (List.mem_cons_of_mem pr hq), ?_⟩
      intro hcontra
      exact hnd1 (hcontra ▸ List.mem_map_of_mem Prod.snd hq)

/-- In a zip-built dict with pairwise-distinct keys, looking up the
`i`-th key returns the `i`-th value. -/
theorem pyDictGet_zip_get :
    ∀ (names : List String) (poses : List α) (i : ℕ)
      (h1 : i < names.length) (h2 : i < poses.length), names.Nodup →
      pyDictGet (names.zip poses) (names.get ⟨i, h1⟩) =
        some (poses.get ⟨i, h2⟩) := by
  intro names
  induction names with
  | nil => intro poses i h1; exact absurd h1 (by simp)
  | cons n ns ih =>
    intro poses i h1 h2 hnd
    cases poses with
    | nil => exact absurd h2 (by simp)
    | cons p ps =>
      cases i with
      | zero => simp [pyDictGet]
      | succ j =>
        have hj1 : j < ns.length := by
          simpa using h1
        have hj2 : j < ps.length := by
          simpa using h2
        have hne : n ≠ ns.get ⟨j, hj1⟩ := by
          intro hcontra
          exact (List.nodup_cons.mp hnd).1 (hcontra ▸ List.get_mem ns j hj1)
        have hgs : (n :: ns).get ⟨j + 1, h1⟩ = ns.get ⟨j, hj1⟩ := rfl
        have hps : (p :: ps).get ⟨j + 1, h2⟩ = ps.get ⟨j, hj2⟩ := rfl
        rw [List.zip_cons_cons, hgs, hps]
        simp only [pyDictGet, if_neg hne]
        exact ih ps j hj1 hj2 (List.nodup_cons.mp hnd).2

/-- C7: `save_camera_poses` fails with the count-mismatch assertion
whenever the name and pose counts differ; with equal counts it writes a
JSON object with the single top-level key `"extrinsics"` holding the dict
that maps each view name to its pose (so with distinct names, the `i`-th
name looks up the `i`-th pose). -/
theorem save_camera_poses_contract :
    (∀ (poses : List PoseList) (names : List String),
      names.length ≠ poses.length →
      save_camera_poses poses names = .error .assertionError) ∧
    (∀ (poses : List PoseList) (names : List String),
      names.length = poses.length → names.Nodup →
      save_camera_poses poses names = .ok [("extrinsics", names.zip poses)] ∧
      ∀ (i : ℕ) (h1 : i < names.length) (h2 : i < poses.length),
        pyDictGet (names.zip poses) (names.get ⟨i, h1⟩) =
          some (poses.get ⟨i, h2⟩)) := by
  constructor
  · intro poses names h
    simp [save_camera_poses, h]
  · intro poses names hlen hnd
    constructor
    · have hsnd : (poses.zip names).map Prod.snd = names :=
        List.map_snd_zip poses names (le_of_eq hlen)
      have hbuild := foldl_pyDictInsert_nodup (poses.zip names) []
        (by rw [hsnd]; exact hnd) (by simp)
      have hswap : (poses.zip names).map (fun pr => (pr.2, pr.1)) =
          names.zip poses := List.zip_swap poses names
      simp only [save_camera_poses, if_pos hlen, hbuild, hswap, List.nil_append]
    · intro i h1 h2
      exact pyDictGet_zip_get names poses i h1 h2 hnd

/-- Witness for C7: 3 poses with 2 names fail the count check; 2 poses
with names `"a"`, `"b"` are written under `"extrinsics"` with each name
mapped to its pose. -/
theorem save_camera_poses_contract_witness :
    save_camera_poses [[[(2 : ℚ)]], [[3]], [[4]]] ["a", "b"] =
      .error .assertionError ∧
    save_camera_poses [[[(2 : ℚ)]], [[3]]] ["a", "b"] =
      .ok [("extrinsics", ["a", "b"].zip [[[(2 : ℚ)]], [[3]]])] ∧
    pyDictGet (["a", "b"].zip [[[(2 : ℚ)]], [[3]]])
        (["a", "b"].get ⟨1, by decide⟩) =
      some ([[[(2 : ℚ)]], [[3]]].get ⟨1, by decide⟩) :=
  ⟨save_camera_poses_contract.1 _ _ (by decide),
   (save_camera_poses_contract.2 [[[(2 : ℚ)]], [[3]]] ["a", "b"] rfl
      (by decide)).1,
   (save_camera_poses_contract.2 [[[(2 : ℚ)]], [[3]]] ["a", "b"] rfl
      (by decide)).2 1 (by decide) (by decide)⟩

/-- A successful export on a real scene returns, as the retained
SceneState, the input scene with only `min_conf_thr` replaced by
`conf_trf` of the raw threshold. -/
theorem get3D_scene_retained {outdir : String} {nm : PyVal} {s : SceneState}
    {thr : ℚ} {aPc mSky cDepth : Bool} {p : SceneState × GlbExport}
    (h : get_3D_model_from_scene outdir nm (.scene s) (.float thr) aPc mSky cDepth =
      .ok (some p)) :
    p.1 = { s with min_conf_thr := s.conf_trf thr } := by
  simp only [get_3D_model_from_scene, PyVal.isNone, PyVal.asScene, PyVal.toFloat,
    Bool.false_eq_true, if_false] at h
  split at h
  · exact absurd h (by simp)
  · rename_i g heq
    simp only [Except.ok.injEq, Option.some.injEq] at h
    rw [← h]
    rw [workingCopy_conf_trf s mSky cDepth]

/-- The export result does not depend on the incoming `min_conf_thr`
value: the call overwrites it (from the raw threshold) before computing
masks or geometry. -/
theorem get3D_min_conf_invariant (outdir : String) (nm : PyVal) (s : SceneState)
    (t thr : ℚ) (aPc mSky cDepth : Bool) :
    get_3D_model_from_scene outdir nm (.scene { s with min_conf_thr := t })
      (.float thr) aPc mSky cDepth =
    get_3D_model_from_scene outdir nm (.scene s) (.float thr) aPc mSky cDepth := by
  cases mSky <;> cases cDepth <;> rfl

/-- C4: the only mutation a (successful) export call performs on the
SceneState is setting `min_conf_thr` to the scene's confidence-transform
function applied to the raw threshold; images, point maps, confidence
maps, poses and focals are returned unchanged. -/
theorem export_mutates_only_min_conf_thr (outdir : String) (nm : PyVal)
    (s : SceneState) (thr : ℚ) (aPc mSky cDepth : Bool)
    (p : SceneState × GlbExport)
    (h : get_3D_model_from_scene outdir nm (.scene s) (.float thr) aPc mSky cDepth =
      .ok (some p)) :
    p.1 = { s with min_conf_thr := s.conf_trf thr } :=
  get3D_scene_retained h

/-- C5: re-running the export with identical flag values on the
SceneState returned by a first export (no intervening mutation)
reproduces the first result exactly — in particular the same per-view
masks and hence identical masked geometry. -/
theorem export_masking_idempotent (outdir : String) (nm : PyVal)
    (s : SceneState) (thr : ℚ) (aPc mSky cDepth : Bool)
    (p : SceneState × GlbExport)
    (h : get_3D_model_from_scene outdir nm (.scene s) (.float thr) aPc mSky cDepth =
      .ok (some p)) :
    get_3D_model_from_scene outdir nm (.scene p.1) (.float thr) aPc mSky cDepth =
      .ok (some p) := by
  rw [get3D_scene_retained h, get3D_min_conf_invariant]
  exact h

/-- A one-view, one-pixel scene with identity pose and identity
confidence transform, used to exercise the export pipeline concretely. -/
def sampleScene : SceneState :=
  { imgs := [[1]], pts3d := [[(1, 2, 3)]], im_conf := [[5]], depthmaps := [[1]],
    poses := [1], focals := [1], min_conf_thr := 0, conf_trf := id,
    sky := [[false]], outlier := [[false]] }

/-- The matrix the export inverts for `sampleScene` (identity first pose). -/
def sampleA : M4 := (1 : M4) * OPENGL * rotY180

/-- The artifact the export pipeline writes for `sampleScene`. -/
def sampleGlb : GlbExport :=
  { file := "out/box_pointcloud.glb",
    transform := sampleA.det⁻¹ • sampleA.adjugate,
    geom := .pointcloud [(1, 2, 3)] [1] }

/-- The fixed correction `OPENGL * rotY180` is nonsingular. -/
theorem det4_corr_ne : ¬ det4 (OPENGL * rotY180) = 0 := by
  rw [det4_eq, Matrix.det_mul, det_OPENGL, det_rotY180]
  norm_num

/-- Concrete evaluation of a successful export run on `sampleScene`. -/
theorem sample_run_eq :
    get_3D_model_from_scene "out" (.str "box") (.scene sampleScene) (.float 3)
      true false false =
    .ok (some ({ sampleScene with min_conf_thr := 3 }, sampleGlb)) := by
  simp [get_3D_model_from_scene, PyVal.isNone, PyVal.asScene, PyVal.toFloat,
    PyVal.toStr, sampleScene, SceneState.get_masks, _convert_scene_output_to_glb,
    glbLenOk, buildPointcloud, npConcatenate, maskedSelect, pyIndex, npLinalgInv,
    det4_corr_ne, sampleGlb, sampleA]
  constructor <;> decide

/-- Witness for C4: on the concrete sample run, the retained state is the
input scene with only `min_conf_thr` replaced by `conf_trf 3 = 3`. -/
theorem export_mutates_only_min_conf_thr_witness :
    get_3D_model_from_scene "out" (.str "box") (.scene sampleScene) (.float 3)
        true false false =
      .ok (some ({ sampleScene with min_conf_thr := 3 }, sampleGlb)) ∧
    ({ sampleScene with min_conf_thr := 3 } : SceneState) =
      { sampleScene with min_conf_thr := sampleScene.conf_trf 3 } :=
  ⟨sample_run_eq,
   export_mutates_only_min_conf_thr "out" (.str "box") sampleScene 3
     true false false _ sample_run_eq⟩

/-- Witness for C5: re-running the export on the retained sample state
reproduces the first result byte for byte. -/
theorem export_masking_idempotent_witness :
    get_3D_model_from_scene "out" (.str "box") (.scene sampleScene) (.float 3)
        true false false =
      .ok (some ({ sampleScene with min_conf_thr := 3 }, sampleGlb)) ∧
    get_3D_model_from_scene "out" (.str "box")
        (.scene ({ sampleScene with min_conf_thr := 3 }, sampleGlb).1) (.float 3)
        true false false =
      .ok (some ({ sampleScene with min_conf_thr := 3 }, sampleGlb)) :=
  ⟨sample_run_eq,
   export_masking_idempotent "out" (.str "box") sampleScene 3 true false false
     _ sample_run_eq⟩

/-- Inversion of a successful converter run: the recorded transform is the
exact inverse of `cams2world[0] * OPENGL * rotY180`. -/
theorem convert_ok_transform {outdir name : String} {imgs : List (List Col)}
    {pts3d : List (List Pt)} {mask : List (List Bool)} {focals : List ℚ}
    {cams2world : List M4} {asPc : Bool} {g : GlbExport}
    (h : _convert_scene_output_to_glb outdir name imgs pts3d mask focals
      cams2world asPc = .ok g) :
    ∃ c0, pyIndex cams2world 0 = .ok c0 ∧ ¬ det4 (c0 * OPENGL * rotY180) = 0 ∧
      g.transform =
        (c0 * OPENGL * rotY180).det⁻¹ • (c0 * OPENGL * rotY180).adjugate := by
  unfold _convert_scene_output_to_glb at h
  split at h
  · exact absurd h (by simp)
  · split at h
    · exact absurd h (by simp)
    · split at h
      · exact absurd h (by simp)
      · rename_i c0 hc0
        split at h
        · exact absurd h (by simp)
        · rename_i t ht
          rw [npLinalgInv] at ht
          split at ht
          · exact absurd ht (by simp)
          · rename_i hdet
            refine ⟨c0, hc0, hdet, ?_⟩
            simp only [Except.ok.injEq] at h ht
            rw [← h, ← ht]

/-- Multiplying the exact inverse of `c0 * C` by `c0` cancels the first
camera pose, leaving the exact inverse of `C` alone. -/
theorem inv_smul_adjugate_mul (c0 C : M4) (h : c0.det ≠ 0) :
    ((c0 * C).det⁻¹ • (c0 * C).adjugate) * c0 = C.det⁻¹ • C.adjugate := by
  rw [Matrix.adjugate_mul_distrib, smul_mul_assoc, mul_assoc, Matrix.adjugate_mul,
    Matrix.mul_smul, mul_one, smul_smul, Matrix.det_mul, mul_inv,
    mul_comm (c0.det)⁻¹ (C.det)⁻¹, mul_assoc, inv_mul_cancel₀ h, mul_one]

/-- The exact inverse of the fixed correction composes with the correction
to the identity. -/
theorem corr_inv_mul :
    ((OPENGL * rotY180).det⁻¹ • (OPENGL * rotY180).adjugate) *
      (OPENGL * rotY180) = 1 := by
  have hC : (OPENGL * rotY180).det = 1 := by
    rw [Matrix.det_mul, det_OPENGL, det_rotY180, mul_one]
  rw [smul_mul_assoc, Matrix.adjugate_mul, hC]
  norm_num

/-- C2: on every successful export, the recorded scene transform is the
inverse of (first camera pose × `OPENGL` × `rotY180`); composed with the
first camera pose it equals the inverse of the fixed correction
`OPENGL * rotY180` — independent of the optimizer's world frame — so the
first camera lands at the identity up to that fixed correction. -/
theorem export_canonicalizes_first_camera (outdir name : String)
    (imgs : List (List Col)) (pts3d : List (List Pt)) (mask : List (List Bool))
    (focals : List ℚ) (c0 : M4) (rest : List M4) (asPc : Bool) (g : GlbExport)
    (hdet : c0.det ≠ 0)
    (h : _convert_scene_output_to_glb outdir name imgs pts3d mask focals
      (c0 :: rest) asPc = .ok g) :
    g.transform =
      (c0 * OPENGL * rotY180).det⁻¹ • (c0 * OPENGL * rotY180).adjugate ∧
    g.transform * c0 =
      (OPENGL * rotY180).det⁻¹ • (OPENGL * rotY180).adjugate ∧
    g.transform * c0 * (OPENGL * rotY180) = 1 := by
  obtain ⟨c0', hc0', hdet4, htr⟩ := convert_ok_transform h
  have hc0 : c0' = c0 := by
    have := hc0'
    simp [pyIndex] at this
    exact this.symm
  subst hc0
  have hmul : g.transform * c0' =
      (OPENGL * rotY180).det⁻¹ • (OPENGL * rotY180).adjugate := by
    rw [htr, mul_assoc c0' OPENGL rotY180]
    exact inv_smul_adjugate_mul c0' (OPENGL * rotY180) hdet
  refine ⟨htr, hmul, ?_⟩
  rw [hmul]
  exact corr_inv_mul

/-- The zero-view mesh artifact written by the converter for an identity
first camera pose. -/
def sampleMeshGlb : GlbExport :=
  { file := "out/box_mesh.glb",
    transform := sampleA.det⁻¹ • sampleA.adjugate,
    geom := .mesh { verts := [], cols := [] } }

/-- Concrete evaluation of the converter on an empty view set with one
identity camera pose. -/
theorem sample_convert_eq :
    _convert_scene_output_to_glb "out" "box" [] [] [] [1] [(1 : M4)] false =
      .ok sampleMeshGlb := by
  simp [_convert_scene_output_to_glb, glbLenOk, buildMesh, buildMeshList,
    cat_meshes, pyIndex, npLinalgInv, det4_corr_ne, sampleMeshGlb, sampleA]

/-- Witness for C2: for the identity first camera pose, the recorded
transform composed with the pose and the fixed correction is the
identity. -/
theorem export_canonicalizes_first_camera_witness :
    Matrix.det (1 : M4) ≠ 0 ∧
    _convert_scene_output_to_glb "out" "box" [] [] [] [1] [(1 : M4)] false =
      .ok sampleMeshGlb ∧
    (sampleMeshGlb.transform =
        ((1 : M4) * OPENGL * rotY180).det⁻¹ •
          ((1 : M4) * OPENGL * rotY180).adjugate ∧
      sampleMeshGlb.transform * 1 =
        (OPENGL * rotY180).det⁻¹ • (OPENGL * rotY180).adjugate ∧
      sampleMeshGlb.transform * 1 * (OPENGL * rotY180) = 1) :=
  ⟨by simp, sample_convert_eq,
   export_canonicalizes_first_camera "out" "box" [] [] [] [1] 1 [] false
     sampleMeshGlb (by simp) sample_convert_eq⟩

/-- `np.concatenate` only raises `ValueError`. -/
theorem npConcatenate_error {xs : List (List α)} {e : PyErr}
    (h : npConcatenate xs = .error e) : e = .valueError := by
  unfold npConcatenate at h
  split at h
  · exact (Except.error.injEq _ _ ▸ h).symm
  · exact absurd h (by simp)

/-- Python indexing only raises `IndexError`. -/
theorem pyIndex_error {l : List α} {i : ℕ} {e : PyErr}
    (h : pyIndex l i = .error e) : e = .indexError := by
  unfold pyIndex at h
  split at h
  · exact absurd h (by simp)
  · exact (Except.error.injEq _ _ ▸ h).symm

/-- `np.linalg.inv` only raises `LinAlgError`. -/
theorem npLinalgInv_error {A : M4} {e : PyErr}
    (h : npLinalgInv A = .error e) : e = .linAlgError := by
  unfold npLinalgInv at h
  split at h
  · exact (Except.error.injEq _ _ ▸ h).symm
  · exact absurd h (by simp)

/-- The point-cloud builder only raises `ValueError`. -/
theorem buildPointcloud_error {pts3d : List (List Pt)} {imgs : List (List Col)}
    {mask : List (List Bool)} {e : PyErr}
    (h : buildPointcloud pts3d imgs mask = .error e) : e = .valueError := by
  unfold buildPointcloud at h
  split at h
  · rename_i e1 he1
    exact (Except.error.injEq _ _ ▸ h) ▸ npConcatenate_error he1
  · split at h
    · rename_i e1 he1
      exact (Except.error.injEq _ _ ▸ h) ▸ npConcatenate_error he1
    · exact absurd h (by simp)

/-- The mesh loop only raises `IndexError`. -/
theorem buildMeshList_error {imgs : List (List Col)} {pts3d : List (List Pt)}
    {mask : List (List Bool)} :
    ∀ {idxs : List ℕ} {e : PyErr},
      buildMeshList imgs pts3d mask idxs = .error e → e = .indexError := by
  intro idxs
  induction idxs with
  | nil => intro e h; exact absurd h (by simp [buildMeshList])
  | cons i rest ih =>
    intro e h
    unfold buildMeshList at h
    split at h
    · rename_i e1 he1
      injection h with h2
      subst h2
      exact pyIndex_error he1
    · split at h
      · rename_i e1 he1
        injection h with h2
        subst h2
        exact pyIndex_error he1
      · split at h
        · rename_i e1 he1
          injection h with h2
          subst h2
          exact pyIndex_error he1
        · split at h
          · rename_i e1 he1
            injection h with h2
            subst h2
            exact ih he1
          · exact absurd h (by simp)

/-- The mesh builder only raises `IndexError`. -/
theorem buildMesh_error {imgs : List (List Col)} {pts3d : List (List Pt)}
    {mask : List (List Bool)} {e : PyErr}
    (h : buildMesh imgs pts3d mask = .error e) : e = .indexError := by
  unfold buildMesh at h
  split at h
  · rename_i e1 he1
    exact (Except.error.injEq _ _ ▸ h) ▸ buildMeshList_error he1
  · exact absurd h (by simp)

/-- The second component of a zip member belongs to the second list. -/
theorem snd_mem_of_mem_zip :
    ∀ {l1 : List α} {l2 : List β} {x : α × β}, x ∈ l1.zip l2 → x.2 ∈ l2 := by
  intro l1
  induction l1 with
  | nil => intro l2 x h; exact absurd h (by simp)
  | cons a l1 ih =>
    intro l2 x h
    cases l2 with
    | nil => exact absurd h (by simp)
    | cons b l2 =>
      rw [List.zip_cons_cons] at h
      rcases List.mem_cons.mp h with h | h
      · rw [h]; exact List.mem_cons_self b l2
      · exact List.mem_cons_of_mem b (ih h)

/-- Selecting through an all-false mask keeps nothing. -/
theorem maskedSelect_all_false :
    ∀ (p : List α) (m : List Bool), (∀ b ∈ m, b = false) →
      maskedSelect p m = [] := by
  intro p
  induction p with
  | nil => intro m _; rfl
  | cons a p ih =>
    intro m hm
    cases m with
    | nil => rfl
    | cons b bs =>
      have hb : b = false := hm b (List.mem_cons_self b bs)
      subst hb
      have := ih bs (fun c hc => hm c (List.mem_cons_of_mem false hc))
      simpa [maskedSelect, List.zip_cons_cons] using this

/-- Flattening a list of empty lists yields the empty list. -/
theorem flatten_eq_nil_of_all :
    ∀ (xs : List (List α)), (∀ l ∈ xs, l = []) → xs.flatten = [] := by
  intro xs
  induction xs with
  | nil => intro _; rfl
  | cons l ls ih =>
    intro h
    have hl : l = [] := h l (List.mem_cons_self l ls)
    have := ih (fun m hm => h m (List.mem_cons_of_mem l hm))
    simp [hl, this]

/-- With every mask all-false and all indices in range, the mesh loop
succeeds and every produced per-view mesh is empty. -/
theorem buildMeshList_empty {imgs : List (List Col)} {pts3d : List (List Pt)}
    {mask : List (List Bool)}
    (hmask : ∀ m ∈ mask, ∀ b ∈ m, b = false) :
    ∀ idxs : List ℕ,
      (∀ i ∈ idxs, i < imgs.length ∧ i < pts3d.length ∧ i < mask.length) →
      ∃ ms, buildMeshList imgs pts3d mask idxs = .ok ms ∧
        ∀ d ∈ ms, d.verts = [] := by
  intro idxs
  induction idxs with
  | nil => intro _; exact ⟨[], rfl, by simp⟩
  | cons i rest ih =>
    intro hb
    obtain ⟨hi1, hi2, hi3⟩ := hb i (List.mem_cons_self i rest)
    obtain ⟨ms, hms, hv⟩ := ih (fun j hj => hb j (List.mem_cons_of_mem i hj))
    refine ⟨pts3d_to_trimesh (imgs.get ⟨i, hi1⟩) (pts3d.get ⟨i, hi2⟩)
      (mask.get ⟨i, hi3⟩) :: ms, ?_, ?_⟩
    · simp [buildMeshList, pyIndex, hi1, hi2, hi3, hms]
    · intro d hd
      rcases List.mem_cons.mp hd with h | h
      · rw [h]
        exact maskedSelect_all_false _ _ (hmask _ (List.get_mem mask i hi3))
      · exact hv d h

/-- C9: when confidence thresholding (with the optional sky/depth
cleanups) leaves every per-view mask empty, the converter still succeeds,
writing a valid artifact whose geometry is empty, in both the point-cloud
and the mesh branch. -/
theorem export_empty_masks_no_error (outdir name : String)
    (imgs : List (List Col)) (pts3d : List (List Pt)) (mask : List (List Bool))
    (focals : List ℚ) (c0 : M4) (rest : List M4) (asPc : Bool)
    (h1 : pts3d.length = mask.length) (h2 : mask.length = imgs.length)
    (h3 : imgs.length = (c0 :: rest).length)
    (h4 : (c0 :: rest).length = focals.length)
    (hmask : ∀ m ∈ mask, ∀ b ∈ m, b = false)
    (hdet : ¬ det4 (c0 * OPENGL * rotY180) = 0) :
    ∃ g, _convert_scene_output_to_glb outdir name imgs pts3d mask focals
        (c0 :: rest) asPc = .ok g ∧ g.geom.verts = [] := by
  have hlen : glbLenOk pts3d.length mask.length imgs.length
      (c0 :: rest).length focals.length = true := by
    simp [glbLenOk, h1, h2, h3, h4]
  have hpos : 0 < pts3d.length := by
    rw [h1, h2, h3]
    simp
  have hGeom : ∃ geom,
      (if asPc = true then buildPointcloud pts3d imgs mask
       else buildMesh imgs pts3d mask) = .ok geom ∧ geom.verts = [] := by
    cases asPc with
    | false =>
      obtain ⟨ms, hms, hv⟩ := buildMeshList_empty hmask (List.range imgs.length)
        (fun i hi => by
          have hilt : i < imgs.length := List.mem_range.mp hi
          exact ⟨hilt, by rw [h1, h2]; exact hilt, by rw [h2]; exact hilt⟩)
      refine ⟨.mesh (cat_meshes ms), ?_, ?_⟩
      · simp [buildMesh, hms]
      · show (cat_meshes ms).verts = []
        unfold cat_meshes
        exact flatten_eq_nil_of_all _ (fun l hl => by
          obtain ⟨d, hd, rfl⟩ := List.mem_map.mp hl
          exact hv d hd)
    | true =>
      have hallp : ∀ l ∈ (pts3d.zip mask).map
          (fun pm => maskedSelect pm.1 pm.2), l = [] := by
        intro l hl
        obtain ⟨pm, hpm, rfl⟩ := List.mem_map.mp hl
        exact maskedSelect_all_false _ _ (hmask pm.2 (snd_mem_of_mem_zip hpm))
      have halli : ∀ l ∈ (imgs.zip mask).map
          (fun pm => maskedSelect pm.1 pm.2), l = [] := by
        intro l hl
        obtain ⟨pm, hpm, rfl⟩ := List.mem_map.mp hl
        exact maskedSelect_all_false _ _ (hmask pm.2 (snd_mem_of_mem_zip hpm))
      have hplen : 0 < ((pts3d.zip mask).map
          (fun pm => maskedSelect pm.1 pm.2)).length := by
        simp only [List.length_map, List.length_zip]
        omega
      have hilen : 0 < ((imgs.zip mask).map
          (fun pm => maskedSelect pm.1 pm.2)).length := by
        simp only [List.length_map, List.length_zip]
        omega
      refine ⟨.pointcloud [] [], ?_, rfl⟩
      simp only [if_true]
      unfold buildPointcloud npConcatenate
      rw [if_neg (by
          rw [List.isEmpty_iff_length_eq_zero]
          omega),
        flatten_eq_nil_of_all _ hallp]
      rw [if_neg (by
          rw [List.isEmpty_iff_length_eq_zero]
          omega),
        flatten_eq_nil_of_all _ halli]
  obtain ⟨geom, hg, hgv⟩ := hGeom
  refine ⟨{ file := outdir ++ "/" ++ name ++ "_" ++
              (if asPc = true then "pointcloud" else "mesh") ++ ".glb",
            transform := (c0 * OPENGL * rotY180).det⁻¹ •
              (c0 * OPENGL * rotY180).adjugate,
            geom := geom }, ?_, hgv⟩
  unfold _convert_scene_output_to_glb
  rw [hlen]
  simp only [Bool.not_true, Bool.false_eq_true, if_false]
  rw [hg]
  simp [pyIndex, npLinalgInv, hdet]

/-- Witness for C9: a one-view scene whose single mask is all-false still
exports, as a point cloud with no vertices. -/
theorem export_empty_masks_no_error_witness :
    (∀ m ∈ [[false]], ∀ b ∈ m, b = false) ∧
    ∃ g, _convert_scene_output_to_glb "out" "box" [[(1 : ℚ)]]
        [[((1 : ℚ), (2 : ℚ), (3 : ℚ))]] [[false]] [1] [(1 : M4)] true =
        .ok g ∧ g.geom.verts = [] :=
  ⟨by decide,
   export_empty_masks_no_error "out" "box" [[1]] [[(1, 2, 3)]] [[false]] [1]
     1 [] true rfl rfl rfl rfl (by decide)
     (by rw [Matrix.one_mul]; exact det4_corr_ne)⟩

/-- C10: the converter's precondition is exactly the chained relation
`len(pts3d) == len(mask) <= len(imgs) <= len(cams2world) == len(focals)`;
any input violating it fails with the assertion error, and under the
all-lengths-equal SceneState invariant the assertion branch is
unreachable (the converter never returns the assertion error). -/
theorem glb_length_assertion :
    (∀ a b c d e : ℕ,
      glbLenOk a b c d e = true ↔ (a = b ∧ b ≤ c ∧ c ≤ d ∧ d = e)) ∧
    (∀ (outdir name : String) (imgs : List (List Col)) (pts3d : List (List Pt))
        (mask : List (List Bool)) (focals : List ℚ) (cams2world : List M4)
        (asPc : Bool),
      glbLenOk pts3d.length mask.length imgs.length cams2world.length
        focals.length = false →
      _convert_scene_output_to_glb outdir name imgs pts3d mask focals
        cams2world asPc = .error .assertionError) ∧
    (∀ (outdir name : String) (imgs : List (List Col)) (pts3d : List (List Pt))
        (mask : List (List Bool)) (focals : List ℚ) (cams2world : List M4)
        (asPc : Bool),
      pts3d.length = mask.length → mask.length = imgs.length →
      imgs.length = cams2world.length → cams2world.length = focals.length →
      _convert_scene_output_to_glb outdir name imgs pts3d mask focals
        cams2world asPc ≠ .error .assertionError) := by
  refine ⟨?_, ?_, ?_⟩
  · intro a b c d e
    simp [glbLenOk, and_assoc]
  · intro outdir name imgs pts3d mask focals cams2world asPc hfalse
    simp [_convert_scene_output_to_glb, hfalse]
  · intro outdir name imgs pts3d mask focals cams2world asPc h1 h2 h3 h4 hcontra
    have htrue : glbLenOk pts3d.length mask.length imgs.length
        cams2world.length focals.length = true := by
      simp [glbLenOk, h1, h2, h3, h4]
    unfold _convert_scene_output_to_glb at hcontra
    rw [htrue] at hcontra
    simp only [Bool.not_true, Bool.false_eq_true, if_false] at hcontra
    split at hcontra
    · rename_i e1 he1
      injection hcontra with h5
      have : e1 = .valueError ∨ e1 = .indexError := by
        cases asPc with
        | true =>
          simp only [if_true] at he1
          exact Or.inl (buildPointcloud_error he1)
        | false =>
          simp only [Bool.false_eq_true, if_false] at he1
          exact Or.inr (buildMesh_error he1)
      rcases this with h | h <;> rw [h5] at h <;> exact absurd h (by decide)
    · split at hcontra
      · rename_i e1 he1
        injection hcontra with h5
        have h6 := pyIndex_error he1
        rw [h5] at h6
        exact absurd h6 (by decide)
      · split at hcontra
        · rename_i e1 he1
          injection hcontra with h5
          have h6 := npLinalgInv_error he1
          rw [h5] at h6
          exact absurd h6 (by decide)
        · exact absurd hcontra (by simp)

/-- Witness for C10: a violating length combination (1 point map, 0
masks) trips the assertion; an all-equal combination never returns the
assertion error. -/
theorem glb_length_assertion_witness :
    (glbLenOk 1 1 2 3 3 = true ↔
      ((1 : ℕ) = 1 ∧ 1 ≤ 2 ∧ 2 ≤ 3 ∧ (3 : ℕ) = 3)) ∧
    _convert_scene_output_to_glb "o" "n" [] [[((1 : ℚ), (2 : ℚ), (3 : ℚ))]]
      [] [] [] true = .error .assertionError ∧
    _convert_scene_output_to_glb "o" "n" [[(1 : ℚ)]]
      [[((1 : ℚ), (2 : ℚ), (3 : ℚ))]] [[true]] [1] [(1 : M4)] true ≠
      .error .assertionError :=
  ⟨glb_length_assertion.1 1 1 2 3 3,
   glb_length_assertion.2.1 "o" "n" [] [[(1, 2, 3)]] [] [] [] true rfl,
   glb_length_assertion.2.2 "o" "n" [[1]] [[(1, 2, 3)]] [[true]] [1]
     [(1 : M4)] true rfl rfl rfl rfl⟩
